import Mathlib

/-!
Verification of the okx-ai-crypto-trader core against its specification.

The development shallowly embeds the two core components:
* the indicator/signal engine (`src/services/quantService.ts`), and
* the signed REST client (`OKXApiService`).

JavaScript numbers are modelled as rationals (ℚ); `Math.sqrt` (whose exact
value is irrational in general) is passed as an explicit function parameter —
the only fact any claim needs about it is nonnegativity.  Strings are Lean
strings.  The HMAC-SHA256/Base64 primitive used by the client comes from the
external CryptoJS library; it is modelled concretely below by a full SHA-256
implementation over byte lists.
-/

namespace OkxTrader

/-! ### Shared list helpers (JS array idioms) -/

/-- JS `arr[arr.length - 1] || 0`: the last element, or 0 for an empty array
(and 0 when the last element is 0, which coincides). -/
def lastOrZero (xs : List ℚ) : ℚ := (xs.getLast?).getD 0

/-- JS `arr.slice(-n)` for a nonnegative `n`: the last `min n len` elements.
JS converts `-0` to `0`, so `slice(-0)` returns the whole array. -/
def sliceLast (xs : List ℚ) (n : ℕ) : List ℚ :=
  if n = 0 then xs else xs.drop (xs.length - n)

/-- JS `arr.reduce((a, b) => a + b, 0)`. -/
def listSum (xs : List ℚ) : ℚ := xs.foldl (fun a b => a + b) 0

/-- The consecutive differences `p[i] - p[i-1]` of a price history (the loop
`for (let i = 1; i < length; i++)` in `calculateRSI`/`calculateVolatility`). -/
def diffs (xs : List ℚ) : List ℚ :=
  List.zipWith (fun a b => a - b) (xs.drop 1) xs

/-! ### Indicator engine data model (`quantService.ts`) -/

inductive MLModel where
  | lstm | transformer | ensemble
deriving DecidableEq

inductive RiskTolerance where
  | low | medium | high
deriving DecidableEq

structure AIModelConfig where
  model : MLModel
  lookback : ℕ
  predictionHorizon : ℕ
  riskTolerance : RiskTolerance
  maxPositionSize : ℚ
  stopLoss : ℚ
  takeProfit : ℚ
deriving DecidableEq

/-- The constructor's default config. -/
def defaultConfig : AIModelConfig :=
  { model := .ensemble, lookback := 100, predictionHorizon := 24,
    riskTolerance := .medium, maxPositionSize := 0.1,
    stopLoss := 0.02, takeProfit := 0.03 }

/-- The engine's mutable state: config plus the rolling histories. -/
structure QuantState where
  config : AIModelConfig
  priceHistory : List ℚ
  volumeHistory : List ℚ
deriving DecidableEq

/-- `addMarketData(price, volume)`: push both samples, then if the price
history exceeds `lookback * 2`, truncate both histories with `slice(-lookback)`. -/
def addMarketData (price volume : ℚ) (s : QuantState) : QuantState :=
  let prices := s.priceHistory ++ [price]
  let volumes := s.volumeHistory ++ [volume]
  if prices.length > s.config.lookback * 2 then
    { s with priceHistory := sliceLast prices s.config.lookback,
             volumeHistory := sliceLast volumes s.config.lookback }
  else
    { s with priceHistory := prices, volumeHistory := volumes }

/-- `calculateRSI(period)`. -/
def calculateRSI (prices : List ℚ) (period : ℕ) : ℚ :=
  if prices.length < period + 1 then 50 else
  let gains := (diffs prices).map (fun change => if change > 0 then change else 0)
  let losses := (diffs prices).map (fun change => if change < 0 then |change| else 0)
  let avgGain := listSum (sliceLast gains period) / period
  let avgLoss := listSum (sliceLast losses period) / period
  if avgLoss = 0 then 100 else
  let rs := avgGain / avgLoss
  100 - (100 / (1 + rs))

/-- `calculateEMA(period)`: seed with the simple average of the first `period`
samples, then fold the smoothing recurrence over the remaining samples. -/
def calculateEMA (prices : List ℚ) (period : ℕ) : ℚ :=
  if prices.length < period then lastOrZero prices else
  let multiplier : ℚ := 2 / (period + 1)
  let seed := listSum (prices.take period) / period
  (prices.drop period).foldl (fun ema p => p * multiplier + ema * (1 - multiplier)) seed

structure MACDResult where
  macd : ℚ
  signal : ℚ
  histogram : ℚ
deriving DecidableEq

/-- `calculateMACD()`. -/
def calculateMACD (prices : List ℚ) : MACDResult :=
  if prices.length < 26 then ⟨0, 0, 0⟩ else
  let ema12 := calculateEMA prices 12
  let ema26 := calculateEMA prices 26
  let macd := ema12 - ema26
  let signal := macd * 0.8
  let histogram := macd - signal
  ⟨macd, signal, histogram⟩

/-- `calculateSMA(period)`. -/
def calculateSMA (prices : List ℚ) (period : ℕ) : ℚ :=
  if prices.length < period then lastOrZero prices else
  let recent := sliceLast prices period
  listSum recent / period

structure BollingerBands where
  upper : ℚ
  middle : ℚ
  lower : ℚ
deriving DecidableEq

/-- `calculateBollingerBands()`; `sqrt` models `Math.sqrt`. -/
def calculateBollingerBands (sqrt : ℚ → ℚ) (prices : List ℚ) : BollingerBands :=
  if prices.length < 20 then
    let price := lastOrZero prices
    ⟨price, price, price⟩
  else
    let sma := calculateSMA prices 20
    let recent := sliceLast prices 20
    let variance := listSum (recent.map (fun price => (price - sma) ^ 2)) / 20
    let stdDev := sqrt variance
    ⟨sma + stdDev * 2, sma, sma - stdDev * 2⟩

/-- `calculateVolatility()`; `sqrt` models `Math.sqrt`. -/
def calculateVolatility (sqrt : ℚ → ℚ) (prices : List ℚ) : ℚ :=
  if prices.length < 20 then 0 else
  let returns := List.zipWith (fun a b => (a - b) / b) (prices.drop 1) prices
  let avgReturn := listSum returns / returns.length
  let variance := listSum (returns.map (fun ret => (ret - avgReturn) ^ 2)) / returns.length
  sqrt variance * 100

structure SMAGroup where
  sma20 : ℚ
  sma50 : ℚ
  sma200 : ℚ
deriving DecidableEq

structure MarketIndicators where
  rsi : ℚ
  macd : MACDResult
  bollinger : BollingerBands
  sma : SMAGroup
  volume : ℚ
  volatility : ℚ
deriving DecidableEq

/-- `getMarketIndicators()`. -/
def getMarketIndicators (sqrt : ℚ → ℚ) (prices volumes : List ℚ) : MarketIndicators :=
  { rsi := calculateRSI prices 14,
    macd := calculateMACD prices,
    bollinger := calculateBollingerBands sqrt prices,
    sma := ⟨calculateSMA prices 20, calculateSMA prices 50, calculateSMA prices 200⟩,
    volume := lastOrZero volumes,
    volatility := calculateVolatility sqrt prices }

inductive TradeAction where
  | buy | sell | hold
deriving DecidableEq

/-- `TradingSignal` minus the wall-clock `timestamp` field. -/
structure TradingSignal where
  action : TradeAction
  confidence : ℚ
  price : ℚ
  quantity : ℚ
  reasoning : String
deriving DecidableEq

/-- `generateTradingSignal()`: the sequential score/reasoning accumulation,
embedded as a chain of (score, reasoning) pairs in source order. -/
def generateTradingSignal (sqrt : ℚ → ℚ) (prices volumes : List ℚ)
    (cfg : AIModelConfig) : TradingSignal :=
  let indicators := getMarketIndicators sqrt prices volumes
  let currentPrice := lastOrZero prices
  let st0 : ℚ × List String := (0, [])
  let st1 : ℚ × List String :=
    if indicators.rsi < 30 then (st0.1 + 2, st0.2 ++ ["RSI超卖信号"])
    else if indicators.rsi > 70 then (st0.1 - 2, st0.2 ++ ["RSI超买信号"])
    else st0
  let st2 : ℚ × List String :=
    if indicators.macd.histogram > 0 ∧ indicators.macd.macd > indicators.macd.signal then
      (st1.1 + 1.5, st1.2 ++ ["MACD看涨信号"])
    else if indicators.macd.histogram < 0 ∧ indicators.macd.macd < indicators.macd.signal then
      (st1.1 - 1.5, st1.2 ++ ["MACD看跌信号"])
    else st1
  let st3 : ℚ × List String :=
    if currentPrice < indicators.bollinger.lower then (st2.1 + 1, st2.2 ++ ["价格接近布林带下轨"])
    else if currentPrice > indicators.bollinger.upper then (st2.1 - 1, st2.2 ++ ["价格接近布林带上轨"])
    else st2
  let st4 : ℚ × List String :=
    if indicators.sma.sma20 > indicators.sma.sma50 ∧ indicators.sma.sma50 > indicators.sma.sma200 then
      (st3.1 + 1, st3.2 ++ ["均线多头排列"])
    else if indicators.sma.sma20 < indicators.sma.sma50 ∧ indicators.sma.sma50 < indicators.sma.sma200 then
      (st3.1 - 1, st3.2 ++ ["均线空头排列"])
    else st3
  let st5 : ℚ × List String :=
    if indicators.volatility > 5 then (st4.1 * 0.8, st4.2 ++ ["高波动率环境"]) else st4
  let score := st5.1
  let confidence := min (|score| / 5) 1
  let action :=
    if score > 2 then TradeAction.buy
    else if score < -2 then TradeAction.sell
    else TradeAction.hold
  let baseQuantity := cfg.maxPositionSize
  let adjustedQuantity := baseQuantity * confidence
  { action := action, confidence := confidence, price := currentPrice,
    quantity := adjustedQuantity,
    reasoning := String.intercalate ", " st5.2 }

/-! ### Signed API client data model (`OKXApiService`) -/

/-- `OKXCredentials`; the optional `sandbox?: boolean` flag is modelled as a
`Bool` (`false` for absent, matching JS truthiness). -/
structure OKXCredentials where
  apiKey : String
  secretKey : String
  passphrase : String
  sandbox : Bool
deriving DecidableEq

/-- The result shape `{ isValid: boolean; error?: string }`. -/
structure ValidationResult where
  isValid : Bool
  error : Option String
deriving DecidableEq

/-- A hexadecimal digit, upper or lower case (the `[0-9a-f]` class of the
case-insensitive API-key regex). -/
def isHexDigit (c : Char) : Bool :=
  (decide ('0' ≤ c) && decide (c ≤ '9')) ||
  (decide ('a' ≤ c) && decide (c ≤ 'f')) ||
  (decide ('A' ≤ c) && decide (c ≤ 'F'))

/-- Split a character list at every occurrence of the separator (the semantics
of JS `split(sep)` and of `String.splitOn` for a one-character separator). -/
def splitOnChar (sep : Char) : List Char → List (List Char)
  | [] => [[]]
  | c :: rest =>
      let r := splitOnChar sep rest
      if c = sep then [] :: r
      else
        match r with
        | [] => [[c]]
        | g :: gs => (c :: g) :: gs

/-- JS `s.split(sep)` for a one-character separator. -/
def jsSplit (s : String) (sep : Char) : List String :=
  (splitOnChar sep s.toList).map String.mk

/-- The anchored, case-insensitive regex
`^[0-9a-f]\x7b8\x7d-[0-9a-f]\x7b4\x7d-[0-9a-f]\x7b4\x7d-[0-9a-f]\x7b4\x7d-[0-9a-f]\x7b12\x7d$`:
exactly five dash-separated hex groups of lengths 8-4-4-4-12. -/
def uuidPatternTest (s : String) : Bool :=
  match jsSplit s '-' with
  | [a, b, c, d, e] =>
      a.length = 8 && b.length = 4 && c.length = 4 && d.length = 4 && e.length = 12 &&
      a.toList.all isHexDigit && b.toList.all isHexDigit && c.toList.all isHexDigit &&
      d.toList.all isHexDigit && e.toList.all isHexDigit
  | _ => false

/-- `validateCredentialsFormat(credentials)`. -/
def validateCredentialsFormat (c : OKXCredentials) : ValidationResult :=
  let apiKey := c.apiKey.trim
  let secretKey := c.secretKey.trim
  let passphrase := c.passphrase.trim
  if apiKey = "" || secretKey = "" || passphrase = "" then
    ⟨false, some "请确保所有字段都已填写完整"⟩
  else if !(uuidPatternTest apiKey) then
    ⟨false, some "API Key格式不正确，应为UUID格式（例如：12345678-1234-1234-1234-123456789abc）"⟩
  else if secretKey.length < 20 then
    ⟨false, some "Secret Key长度不正确，请检查是否完整复制"⟩
  else if passphrase.length < 1 || passphrase.length > 30 then
    ⟨false, some "Passphrase长度应在1-30个字符之间"⟩
  else ⟨true, none⟩

/-! ### SHA-256 / HMAC / Base64 (model of the CryptoJS primitive)

Bytes are naturals below 256, 32-bit words are naturals reduced mod `2 ^ 32`. -/

def w32 (x : ℕ) : ℕ := x % 2 ^ 32

/-- 32-bit right rotation. -/
def rotr (n x : ℕ) : ℕ := w32 ((x >>> n) ||| (x <<< (32 - n)))

/-- 32-bit bitwise complement (inputs are below `2 ^ 32`). -/
def bnot32 (x : ℕ) : ℕ := x ^^^ 0xffffffff

def sha256BigSigma0 (x : ℕ) : ℕ := rotr 2 x ^^^ rotr 13 x ^^^ rotr 22 x

def sha256BigSigma1 (x : ℕ) : ℕ := rotr 6 x ^^^ rotr 11 x ^^^ rotr 25 x

def sha256SmallSigma0 (x : ℕ) : ℕ := rotr 7 x ^^^ rotr 18 x ^^^ (x >>> 3)

def sha256SmallSigma1 (x : ℕ) : ℕ := rotr 17 x ^^^ rotr 19 x ^^^ (x >>> 10)

def sha256Ch (x y z : ℕ) : ℕ := (x &&& y) ^^^ (bnot32 x &&& z)

def sha256Maj (x y z : ℕ) : ℕ := (x &&& y) ^^^ (x &&& z) ^^^ (y &&& z)

/-- The 64 SHA-256 round constants (FIPS 180-4, written in decimal). -/
def sha256K : List ℕ :=
  [1116352408, 1899447441, 3049323471, 3921009573, 961987163, 1508970993,
   2453635748, 2870763221, 3624381080, 310598401, 607225278, 1426881987,
   1925078388, 2162078206, 2614888103, 3248222580, 3835390401, 4022224774,
   264347078, 604807628, 770255983, 1249150122, 1555081692, 1996064986,
   2554220882, 2821834349, 2952996808, 3210313671, 3336571891, 3584528711,
   113926993, 338241895, 666307205, 773529912, 1294757372, 1396182291,
   1695183700, 1986661051, 2177026350, 2456956037, 2730485921, 2820302411,
   3259730800, 3345764771, 3516065817, 3600352804, 4094571909, 275423344,
   430227734, 506948616, 659060556, 883997877, 958139571, 1322822218,
   1537002063, 1747873779, 1955562222, 2024104815, 2227730452, 2361852424,
   2428436474, 2756734187, 3204031479, 3329325298]

/-- The SHA-256 initial hash state (FIPS 180-4, written in decimal). -/
def sha256H0 : List ℕ :=
  [1779033703, 3144134277, 1013904242, 2773480762,
   1359893119, 2600822924, 528734635, 1541459225]

/-- SHA-256 padding: append `0x80`, zero-pad to 56 mod 64, then the 64-bit
big-endian bit length. -/
def sha256Pad (msg : List ℕ) : List ℕ :=
  let len := msg.length
  let bitLen := 8 * len
  let padZeros := (119 - len % 64) % 64
  msg ++ [0x80] ++ List.replicate padZeros 0 ++
    (List.range 8).map (fun i => (bitLen >>> ((7 - i) * 8)) % 256)

/-- Four big-endian bytes to a 32-bit word. -/
def bytesToWord (bs : List ℕ) : ℕ := bs.foldl (fun acc b => acc * 256 + b) 0

/-- A 32-bit word to four big-endian bytes. -/
def wordToBytes (x : ℕ) : List ℕ :=
  [(x >>> 24) % 256, (x >>> 16) % 256, (x >>> 8) % 256, x % 256]

/-- The 64-word message schedule of one 64-byte block. -/
def sha256Schedule (block : List ℕ) : List ℕ :=
  let w16 := (List.range 16).map (fun i => bytesToWord ((block.drop (4 * i)).take 4))
  (List.range 48).foldl
    (fun w _ =>
      let n := w.length
      w ++ [w32 (sha256SmallSigma1 (w.getD (n - 2) 0) + w.getD (n - 7) 0 +
                 sha256SmallSigma0 (w.getD (n - 15) 0) + w.getD (n - 16) 0)])
    w16

/-- One SHA-256 compression round over the 8-word state. -/
def sha256Round (w : List ℕ) (st : List ℕ) (i : ℕ) : List ℕ :=
  match st with
  | [a, b, c, d, e, f, g, h] =>
      let t1 := w32 (h + sha256BigSigma1 e + sha256Ch e f g + sha256K.getD i 0 + w.getD i 0)
      let t2 := w32 (sha256BigSigma0 a + sha256Maj a b c)
      [w32 (t1 + t2), a, b, c, w32 (d + t1), e, f, g]
  | other => other

/-- Compress one 64-byte block into the running hash state. -/
def sha256Compress (h : List ℕ) (block : List ℕ) : List ℕ :=
  let w := sha256Schedule block
  let fin := (List.range 64).foldl (sha256Round w) h
  List.zipWith (fun x y => w32 (x + y)) h fin

/-- SHA-256 of a byte list. -/
def sha256 (msg : List ℕ) : List ℕ :=
  let padded := sha256Pad msg
  let nBlocks := padded.length / 64
  let finalH := (List.range nBlocks).foldl
    (fun h b => sha256Compress h ((padded.drop (64 * b)).take 64)) sha256H0
  finalH.flatMap wordToBytes

/-- HMAC-SHA256 with a 64-byte block size. -/
def hmacSHA256 (key msg : List ℕ) : List ℕ :=
  let key1 := if key.length > 64 then sha256 key else key
  let key2 := key1 ++ List.replicate (64 - key1.length) 0
  let ipad := key2.map (fun b => b ^^^ 0x36)
  let opad := key2.map (fun b => b ^^^ 0x5c)
  sha256 (opad ++ sha256 (ipad ++ msg))

/-- The standard Base64 alphabet. -/
def base64Alphabet : List Char :=
  "ABCDEFGHIJKLMNOPQRSTUVWXYZabcdefghijklmnopqrstuvwxyz0123456789+/".toList

/-- Base64 encoding with `=` padding. -/
def base64Encode (bs : List ℕ) : String :=
  let nGroups := (bs.length + 2) / 3
  String.mk <| (List.range nGroups).flatMap fun g =>
    let k := bs.length - 3 * g
    let b0 := bs.getD (3 * g) 0
    let b1 := bs.getD (3 * g + 1) 0
    let b2 := bs.getD (3 * g + 2) 0
    [base64Alphabet.getD (b0 >>> 2) 'A',
     base64Alphabet.getD (((b0 &&& 3) <<< 4) ||| (b1 >>> 4)) 'A',
     if k ≥ 2 then base64Alphabet.getD (((b1 &&& 15) <<< 2) ||| (b2 >>> 6)) 'A' else '=',
     if k ≥ 3 then base64Alphabet.getD (b2 &&& 63) 'A' else '=']

/-- The UTF-8 bytes of a string. -/
def utf8Bytes (s : String) : List ℕ := s.toUTF8.toList.map UInt8.toNat

/-- JS `method.toUpperCase()`, modelled characterwise (methods are ASCII). -/
def jsToUpper (s : String) : String := String.mk (s.toList.map Char.toUpper)

/-! ### Signing and requests -/

/-- `generateSignature(timestamp, method, requestPath, body)`:
`Base64(HMAC-SHA256(secretKey, timestamp + method.toUpperCase() + requestPath + body))`. -/
def generateSignature (c : OKXCredentials) (timestamp method requestPath body : String) : String :=
  let message := timestamp ++ jsToUpper method ++ requestPath ++ body
  base64Encode (hmacSHA256 (utf8Bytes c.secretKey) (utf8Bytes message))

/-- `getHeaders(method, requestPath, body)` given the wall-clock `timestamp`. -/
def getHeaders (c : OKXCredentials) (timestamp method requestPath body : String) :
    List (String × String) :=
  [("OK-ACCESS-KEY", c.apiKey.trim),
   ("OK-ACCESS-SIGN", generateSignature c timestamp method requestPath body),
   ("OK-ACCESS-TIMESTAMP", timestamp),
   ("OK-ACCESS-PASSPHRASE", c.passphrase.trim),
   ("Content-Type", "application/json")]

/-- The client's mutable state: `baseURL` and optional credentials. -/
structure ApiClientState where
  baseURL : String
  credentials : Option OKXCredentials
deriving DecidableEq

/-- The constructor: `baseURL = 'https://us.okx.com'`, no credentials. -/
def initialApiState : ApiClientState := ⟨"https://us.okx.com", none⟩

/-- `setCredentials(credentials)`: stores the credentials; when the sandbox
flag is truthy it re-assigns the same fixed URL (OKX has no sandbox host). -/
def setCredentials (c : OKXCredentials) (s : ApiClientState) : ApiClientState :=
  { s with credentials := some c,
           baseURL := if c.sandbox then "https://us.okx.com" else s.baseURL }

/-! ### Orders -/

inductive TdMode where
  | cash | cross | isolated
deriving DecidableEq

inductive OrdType where
  | market | limit | post_only | fok | ioc | optimal_limit_ioc
deriving DecidableEq

inductive OrderSide where
  | buy | sell
deriving DecidableEq

inductive PosSide where
  | long | short | net
deriving DecidableEq

structure TradeOrder where
  instId : String
  tdMode : TdMode
  side : OrderSide
  ordType : OrdType
  sz : String
  px : Option String
  ccy : Option String
  clOrdId : Option String
  tag : Option String
  posSide : Option PosSide
  reduceOnly : Option Bool
deriving DecidableEq

def tdModeText : TdMode → String
  | .cash => "cash"
  | .cross => "cross"
  | .isolated => "isolated"

def ordTypeText : OrdType → String
  | .market => "market"
  | .limit => "limit"
  | .post_only => "post_only"
  | .fok => "fok"
  | .ioc => "ioc"
  | .optimal_limit_ioc => "optimal_limit_ioc"

def orderSideText : OrderSide → String
  | .buy => "buy"
  | .sell => "sell"

def posSideText : PosSide → String
  | .long => "long"
  | .short => "short"
  | .net => "net"

/-- JS truthiness of an optional string field (absent or empty is falsy). -/
def strTruthy (s : Option String) : Bool :=
  match s with
  | none => false
  | some v => !(v == "")

/-- Does `needle` occur as a prefix of some suffix of the haystack? -/
def occursIn (needle : List Char) : List Char → Bool
  | [] => needle.isEmpty
  | c :: rest => needle.isPrefixOf (c :: rest) || occursIn needle rest

/-- JS `instId.includes(sub)`: substring containment. -/
def jsIncludes (s sub : String) : Bool := occursIn sub.toList s.toList

/-- `validateOrderParams(order)`: `none` when valid, otherwise the thrown
error message.  Check order: spot/cash-mode, then limit-needs-price, then
market-must-omit-price. -/
def validateOrderParams (o : TradeOrder) : Option String :=
  if (jsIncludes o.instId "-USDT" || jsIncludes o.instId "-USD") &&
     (jsSplit o.instId '-').length = 2 && !(o.tdMode == TdMode.cash) then
    some "现货交易必须使用cash交易模式"
  else if (o.ordType == OrdType.limit || o.ordType == OrdType.post_only) && !(strTruthy o.px) then
    some "限价单和只做maker单必须提供价格"
  else if (o.ordType == OrdType.market) && strTruthy o.px then
    some "市价单不应该提供价格"
  else none

/-- Escape a string for a JSON literal (quote and backslash). -/
def jsonEscape (s : String) : String :=
  String.mk <| s.toList.flatMap fun c =>
    if c = '\\' then ['\\', '\\'] else if c = '"' then ['\\', '"'] else [c]

/-- A JSON string literal. -/
def jsonStr (s : String) : String := "\"" ++ jsonEscape s ++ "\""

/-- `JSON.stringify(orderData)`: the five mandatory fields in insertion order,
then each optional field spread in under JS truthiness (`reduceOnly` under an
`!== undefined` test). -/
def orderBody (o : TradeOrder) : String :=
  let fields : List (String × String) :=
    [("instId", jsonStr o.instId), ("tdMode", jsonStr (tdModeText o.tdMode)),
     ("side", jsonStr (orderSideText o.side)), ("ordType", jsonStr (ordTypeText o.ordType)),
     ("sz", jsonStr o.sz)]
    ++ (if strTruthy o.px then [("px", jsonStr (o.px.getD ""))] else [])
    ++ (if strTruthy o.ccy then [("ccy", jsonStr (o.ccy.getD ""))] else [])
    ++ (if strTruthy o.clOrdId then [("clOrdId", jsonStr (o.clOrdId.getD ""))] else [])
    ++ (if strTruthy o.tag then [("tag", jsonStr (o.tag.getD ""))] else [])
    ++ (match o.posSide with
        | some p => [("posSide", jsonStr (posSideText p))]
        | none => [])
    ++ (match o.reduceOnly with
        | some b => [("reduceOnly", if b then "true" else "false")]
        | none => [])
  "\x7b" ++ String.intercalate "," (fields.map (fun kv => jsonStr kv.1 ++ ":" ++ kv.2)) ++ "\x7d"

/-- The signed HTTP request `placeOrder` would hand to the transport:
constructing one of these is the model's network effect. -/
structure SignedRequest where
  url : String
  body : String
  headers : List (String × String)
deriving DecidableEq

/-- `placeOrder(order)`: credentials check, then local parameter validation;
only after both succeed is a signed request built and sent.  An `Except.error`
means the call failed locally with no network traffic. -/
def placeOrder (timestamp : String) (creds : Option OKXCredentials) (o : TradeOrder) :
    Except String SignedRequest :=
  match creds with
  | none => Except.error "API credentials not set"
  | some c =>
      match validateOrderParams o with
      | some e => Except.error e
      | none =>
          let requestPath := "/api/v5/trade/order"
          let body := orderBody o
          Except.ok { url := "https://us.okx.com" ++ requestPath, body := body,
                      headers := getHeaders c timestamp "POST" requestPath body }

/-! ### Specification-side definitions

These follow the specification's words, to be compared with the definitions
translated from the source. -/

/-- RSI as the spec states it: simple averages of the gains/losses over the
consecutive differences of the last `period + 1` samples, with the 50 and 100
fallbacks. -/
def rsiSpec (prices : List ℚ) : ℚ :=
  if prices.length < 15 then 50 else
  let changes := diffs (sliceLast prices 15)
  let avgGain := listSum (changes.map (fun c => if c > 0 then c else 0)) / 14
  let avgLoss := listSum (changes.map (fun c => if c < 0 then |c| else 0)) / 14
  if avgLoss = 0 then 100 else
  100 - 100 / (1 + avgGain / avgLoss)

/-- EMA as the spec states it: seed with the simple average of the first
`period` samples, then exponential smoothing with multiplier `2 / (period+1)`
over all subsequent samples in order; latest sample (or 0) when short. -/
def emaSpec (prices : List ℚ) (period : ℕ) : ℚ :=
  if prices.length < period then lastOrZero prices else
  (prices.drop period).foldl
    (fun ema p => p * (2 / (period + 1)) + ema * (1 - 2 / (period + 1)))
    (listSum (prices.take period) / period)

/-- MACD as the spec states it: `ema(12) - ema(26)`, signal `= macd * 0.8`
(fixed ratio), histogram `= macd - signal`, all zeros below 26 samples. -/
def macdSpec (prices : List ℚ) : MACDResult :=
  if prices.length < 26 then ⟨0, 0, 0⟩ else
  let m := emaSpec prices 12 - emaSpec prices 26
  ⟨m, m * 0.8, m - m * 0.8⟩

/-- The four format-failure reasons of the spec, in priority order. -/
inductive FormatError where
  | incompleteFields
  | badApiKeyFormat
  | badSecretKeyLength
  | badPassphraseLength
deriving DecidableEq

/-- `validateFormat` as the spec states it: the single first-matching reason,
or `none` when all four checks pass. -/
def validateFormatSpec (c : OKXCredentials) : Option FormatError :=
  if c.apiKey.trim = "" || c.secretKey.trim = "" || c.passphrase.trim = "" then
    some .incompleteFields
  else if !(uuidPatternTest c.apiKey.trim) then
    some .badApiKeyFormat
  else if c.secretKey.trim.length < 20 then
    some .badSecretKeyLength
  else if c.passphrase.trim.length < 1 || c.passphrase.trim.length > 30 then
    some .badPassphraseLength
  else none

/-- The concrete message the source attaches to each abstract reason. -/
def formatErrorMessage : FormatError → String
  | .incompleteFields => "请确保所有字段都已填写完整"
  | .badApiKeyFormat => "API Key格式不正确，应为UUID格式（例如：12345678-1234-1234-1234-123456789abc）"
  | .badSecretKeyLength => "Secret Key长度不正确，请检查是否完整复制"
  | .badPassphraseLength => "Passphrase长度应在1-30个字符之间"

/-- Render the spec-side outcome in the source's result shape. -/
def renderValidation : Option FormatError → ValidationResult
  | none => ⟨true, none⟩
  | some e => ⟨false, some (formatErrorMessage e)⟩

/-- The trading signal as the spec's rule table states it: an independent
additive score per rule, the volatility dampener, thresholding, and the
comma-joined triggered tags in table order. -/
def specSignal (sqrt : ℚ → ℚ) (prices volumes : List ℚ) (cfg : AIModelConfig) : TradingSignal :=
  let ind := getMarketIndicators sqrt prices volumes
  let price := lastOrZero prices
  let raw : ℚ :=
    (if ind.rsi < 30 then 2 else 0) +
    (if ind.rsi > 70 then -2 else 0) +
    (if ind.macd.histogram > 0 ∧ ind.macd.macd > ind.macd.signal then 1.5 else 0) +
    (if ind.macd.histogram < 0 ∧ ind.macd.macd < ind.macd.signal then -1.5 else 0) +
    (if price < ind.bollinger.lower then 1 else 0) +
    (if price > ind.bollinger.upper then -1 else 0) +
    (if ind.sma.sma20 > ind.sma.sma50 ∧ ind.sma.sma50 > ind.sma.sma200 then 1 else 0) +
    (if ind.sma.sma20 < ind.sma.sma50 ∧ ind.sma.sma50 < ind.sma.sma200 then -1 else 0)
  let score := if ind.volatility > 5 then raw * 0.8 else raw
  let tags : List String :=
    (if ind.rsi < 30 then ["RSI超卖信号"] else []) ++
    (if ind.rsi > 70 then ["RSI超买信号"] else []) ++
    (if ind.macd.histogram > 0 ∧ ind.macd.macd > ind.macd.signal then ["MACD看涨信号"] else []) ++
    (if ind.macd.histogram < 0 ∧ ind.macd.macd < ind.macd.signal then ["MACD看跌信号"] else []) ++
    (if price < ind.bollinger.lower then ["价格接近布林带下轨"] else []) ++
    (if price > ind.bollinger.upper then ["价格接近布林带上轨"] else []) ++
    (if ind.sma.sma20 > ind.sma.sma50 ∧ ind.sma.sma50 > ind.sma.sma200 then ["均线多头排列"] else []) ++
    (if ind.sma.sma20 < ind.sma.sma50 ∧ ind.sma.sma50 < ind.sma.sma200 then ["均线空头排列"] else []) ++
    (if ind.volatility > 5 then ["高波动率环境"] else [])
  { action := if score > 2 then .buy else if score < -2 then .sell else .hold,
    confidence := min (|score| / 5) 1,
    price := price,
    quantity := cfg.maxPositionSize * min (|score| / 5) 1,
    reasoning := String.intercalate ", " tags }

/-- The three local order-validation rules of the claim, as one predicate:
(a) spot pair with non-cash trade mode, (b) limit-class order without a price,
(c) market order with a price. -/
def orderRuleViolation (o : TradeOrder) : Bool :=
  ((jsIncludes o.instId "-USDT" || jsIncludes o.instId "-USD") &&
     (jsSplit o.instId '-').length = 2 && !(o.tdMode == TdMode.cash)) ||
  ((o.ordType == OrdType.limit || o.ordType == OrdType.post_only) && !(strTruthy o.px)) ||
  ((o.ordType == OrdType.market) && strTruthy o.px)

/-! ### Concrete fixtures for witnesses and counterexamples -/

/-- A syntactically well-formed set of credentials. -/
def testCreds : OKXCredentials :=
  { apiKey := "12345678-1234-1234-1234-123456789abc",
    secretKey := "AAAABBBBCCCCDDDDEEEEFFFF",
    passphrase := "hunter2", sandbox := false }

/-- The same credentials with the sandbox flag raised. -/
def sandboxCreds : OKXCredentials := { testCreds with sandbox := true }

/-- The spec's scenario order: a spot pair in `cross` mode, market order. -/
def testOrder : TradeOrder :=
  { instId := "BTC-USDT", tdMode := .cross, side := .buy, ordType := .market,
    sz := "1", px := none, ccy := none, clOrdId := none, tag := none,
    posSide := none, reduceOnly := none }

/-- An engine state with `lookback = 0` (reachable via `updateConfig`). -/
def zeroLookbackState : QuantState :=
  { config := { defaultConfig with lookback := 0 },
    priceHistory := [], volumeHistory := [] }

/-- An engine state with `lookback = 1` and a full window of two samples. -/
def smallWindowState : QuantState :=
  { config := { defaultConfig with lookback := 1 },
    priceHistory := [1, 2], volumeHistory := [3, 4] }

/-! ### Helper lemmas -/

theorem diffs_drop (xs : List ℚ) (k : ℕ) : diffs (xs.drop k) = (diffs xs).drop k := by
  unfold diffs
  rw [List.drop_zipWith, List.drop_drop, List.drop_drop, Nat.add_comm k 1]

theorem diffs_length (xs : List ℚ) : (diffs xs).length = xs.length - 1 := by
  unfold diffs
  rw [List.length_zipWith, List.length_drop]
  omega

theorem diffs_sliceLast (p : List ℚ) : diffs (sliceLast p 15) = sliceLast (diffs p) 14 := by
  unfold sliceLast
  rw [if_neg (by omega), if_neg (by omega), diffs_drop, diffs_length]
  congr 1

theorem sliceLast_map (f : ℚ → ℚ) (xs : List ℚ) (n : ℕ) (hn : n ≠ 0) :
    sliceLast (xs.map f) n = (sliceLast xs n).map f := by
  unfold sliceLast
  rw [if_neg hn, if_neg hn, List.map_drop, List.length_map]

/-! ### C4: RSI matches the spec's description -/

/-- C4: `rsi(period=14)` returns 50 below 15 samples, 100 when the simple
average of the last 14 losses is zero, and otherwise `100 - 100/(1 + rs)` with
`rs` the ratio of the simple averages of the last 14 gains and losses — i.e.
`calculateRSI` coincides with `rsiSpec`, the spec's formulation over the
consecutive differences of the last 15 samples. -/
theorem calculateRSI_matches_spec (p : List ℚ) : calculateRSI p 14 = rsiSpec p := by
  have key : ∀ f : ℚ → ℚ, sliceLast ((diffs p).map f) 14 = (diffs (sliceLast p 15)).map f := by
    intro f
    rw [sliceLast_map f _ 14 (by omega), diffs_sliceLast]
  unfold calculateRSI rsiSpec
  by_cases h : p.length < 15
  · rw [if_pos (by omega), if_pos h]
  · rw [if_neg (by omega), if_neg h]
    dsimp only
    rw [key, key]
    norm_num

/-! ### C5: MACD matches the spec's description -/

theorem calculateEMA_eq_emaSpec (p : List ℚ) (n : ℕ) : calculateEMA p n = emaSpec p n := rfl

/-- C5: `macd()` returns all zeros below 26 samples, and otherwise
`macd = ema(12) - ema(26)`, `signal = macd * 0.8`, `histogram = macd - signal`,
with `ema` seeded by the simple average of the first `period` samples and
smoothed with multiplier `2/(period+1)` — i.e. `calculateMACD` coincides with
`macdSpec`, the spec's formulation. -/
theorem calculateMACD_matches_spec (p : List ℚ) : calculateMACD p = macdSpec p := by
  unfold calculateMACD macdSpec
  by_cases h : p.length < 26
  · rw [if_pos h, if_pos h]
  · rw [if_neg h, if_neg h]
    rfl

/-! ### C10: the fixed-ratio signal line collapses the MACD rule conditions -/

/-- C10: for every price history, `histogram = 0.2 * macd` and
`signal = 0.8 * macd`, so the MACD-bullish condition used by `generateSignal`
(`histogram > 0 ∧ macd > signal`) is equivalent to `macd > 0` and the bearish
condition to `macd < 0`. -/
theorem macd_fixed_ratio (p : List ℚ) :
    (calculateMACD p).histogram = 0.2 * (calculateMACD p).macd ∧
    (calculateMACD p).signal = 0.8 * (calculateMACD p).macd ∧
    (((calculateMACD p).histogram > 0 ∧ (calculateMACD p).macd > (calculateMACD p).signal) ↔
      (calculateMACD p).macd > 0) ∧
    (((calculateMACD p).histogram < 0 ∧ (calculateMACD p).macd < (calculateMACD p).signal) ↔
      (calculateMACD p).macd < 0) := by
  unfold calculateMACD
  by_cases h : p.length < 26
  · rw [if_pos h]
    norm_num
  · rw [if_neg h]
    set m := calculateEMA p 12 - calculateEMA p 26 with hm
    refine ⟨by ring, by ring, ?_, ?_⟩
    · constructor
      · rintro ⟨h1, _⟩
        nlinarith
      · intro h1
        constructor <;> nlinarith
    · constructor
      · rintro ⟨h1, _⟩
        nlinarith
      · intro h1
        constructor <;> nlinarith

/-! ### C2: credential format validation matches the spec's priority order -/

/-- C2: `validateFormat` fails with exactly one first-matching reason — empty
fields (after trim) before the UUID check on the API key, before the secret
length check, before the passphrase length check — and succeeds iff all four
checks pass: `validateCredentialsFormat` renders exactly the spec-side
first-match outcome `validateFormatSpec`. -/
theorem validateCredentialsFormat_matches_spec (c : OKXCredentials) :
    validateCredentialsFormat c = renderValidation (validateFormatSpec c) := by
  unfold validateCredentialsFormat validateFormatSpec renderValidation
  dsimp only
  split_ifs <;> rfl

/-! ### C8: setCredentials never changes the base URL -/

/-- C8: for every credentials value — sandbox flag set or not — `setCredentials`
leaves the client's base request URL unchanged at the single fixed venue URL. -/
theorem setCredentials_preserves_baseURL (c : OKXCredentials) (s : ApiClientState)
    (h : s.baseURL = "https://us.okx.com") :
    (setCredentials c s).baseURL = s.baseURL := by
  unfold setCredentials
  by_cases hs : c.sandbox <;> simp [hs, h]

/-- Witness for C8 at the sandbox-flagged credentials and the freshly
constructed client. -/
theorem setCredentials_preserves_baseURL_witness :
    initialApiState.baseURL = "https://us.okx.com" ∧
    (setCredentials sandboxCreds initialApiState).baseURL = initialApiState.baseURL :=
  ⟨rfl, setCredentials_preserves_baseURL sandboxCreds initialApiState rfl⟩

/-! ### C7: the sliding-window invariant of addSample -/

/-- C7 counterexample: with `lookback = 0` (settable through `updateConfig`)
the claim's predicted post-length is wrong — JS `slice(-0)` returns the whole
array, so after one `addSample` the history has length 1, not
`lookback = 0`, even though the precondition `L ≤ 2*lookback` held. -/
theorem addMarketData_zero_lookback_counterexample :
    zeroLookbackState.priceHistory.length ≤ 2 * zeroLookbackState.config.lookback ∧
    (addMarketData 1 1 zeroLookbackState).priceHistory.length ≠
      (if zeroLookbackState.priceHistory.length + 1 ≤ 2 * zeroLookbackState.config.lookback
       then zeroLookbackState.priceHistory.length + 1
       else zeroLookbackState.config.lookback) := by
  constructor
  · decide
  · decide

/-- C7 (amended to positive lookback): for every state with `lookback ≥ 1`
whose histories have length `L ≤ 2*lookback`, `addSample` appends, and the
histories end up with length `L+1` when `L+1 ≤ 2*lookback` and otherwise
exactly `lookback`, holding the `lookback` most-recent samples in order;
in particular the length never exceeds `2*lookback`. -/
theorem addMarketData_window_invariant (s : QuantState) (p v : ℚ) (L : ℕ)
    (hlb : 1 ≤ s.config.lookback)
    (hp : s.priceHistory.length = L)
    (hv : s.volumeHistory.length = L)
    (hL : L ≤ 2 * s.config.lookback) :
    (addMarketData p v s).priceHistory.length =
      (if L + 1 ≤ 2 * s.config.lookback then L + 1 else s.config.lookback) ∧
    (addMarketData p v s).volumeHistory.length =
      (if L + 1 ≤ 2 * s.config.lookback then L + 1 else s.config.lookback) ∧
    (L + 1 ≤ 2 * s.config.lookback →
      (addMarketData p v s).priceHistory = s.priceHistory ++ [p] ∧
      (addMarketData p v s).volumeHistory = s.volumeHistory ++ [v]) ∧
    (¬(L + 1 ≤ 2 * s.config.lookback) →
      (addMarketData p v s).priceHistory =
        (s.priceHistory ++ [p]).drop (L + 1 - s.config.lookback) ∧
      (addMarketData p v s).volumeHistory =
        (s.volumeHistory ++ [v]).drop (L + 1 - s.config.lookback)) ∧
    (addMarketData p v s).priceHistory.length ≤ 2 * s.config.lookback := by
  unfold addMarketData
  by_cases hc : L + 1 ≤ 2 * s.config.lookback
  · rw [if_neg (by simp [hp]; omega)]
    refine ⟨?_, ?_, fun _ => ⟨rfl, rfl⟩, fun hne => absurd hc hne, ?_⟩
    · rw [if_pos hc]
      simp [hp]
    · rw [if_pos hc]
      simp [hv]
    · simp [hp]
      omega
  · rw [if_pos (by simp [hp]; omega)]
    unfold sliceLast
    rw [if_neg (by omega), if_neg (by omega)]
    refine ⟨?_, ?_, fun hyes => absurd hyes hc, fun _ => ⟨?_, ?_⟩, ?_⟩
    · rw [if_neg hc]
      simp [hp]
      omega
    · rw [if_neg hc]
      simp [hv]
      omega
    · simp [hp]
    · simp [hv]
    · simp [hp]
      omega

/-- Witness for the amended C7: `lookback = 1`, a full window `[1, 2]`, one
more sample trims the histories down to the most recent sample. -/
theorem addMarketData_window_invariant_witness :
    (1 ≤ smallWindowState.config.lookback ∧
     smallWindowState.priceHistory.length = 2 ∧
     smallWindowState.volumeHistory.length = 2 ∧
     2 ≤ 2 * smallWindowState.config.lookback) ∧
    (addMarketData 5 6 smallWindowState).priceHistory = [5] ∧
    (addMarketData 5 6 smallWindowState).volumeHistory = [6] ∧
    (addMarketData 5 6 smallWindowState).priceHistory.length ≤
      2 * smallWindowState.config.lookback := by
  have h := addMarketData_window_invariant smallWindowState 5 6 2
    (by decide) (by decide) (by decide) (by decide)
  refine ⟨⟨by decide, by decide, by decide, by decide⟩, ?_, ?_, h.2.2.2.2⟩
  · rw [(h.2.2.2.1 (by decide)).1]
    decide
  · rw [(h.2.2.2.1 (by decide)).2]
    decide

/-! ### C3: placeOrder validates locally and fails fast -/

/-- C3: whenever an order violates one of the three local rules — (a) spot
pair (two-part instrument id containing `-USDT`/`-USD`) with a non-cash trade
mode, (b) limit-class (`limit`/`post_only`) order without a (truthy) price,
(c) market order with a price — `placeOrder` fails with the validation error,
before signing, and no signed request is ever produced. -/
theorem placeOrder_failfast (timestamp : String) (creds : Option OKXCredentials)
    (o : TradeOrder) (h : orderRuleViolation o = true) :
    (validateOrderParams o).isSome = true ∧
    ∃ msg, placeOrder timestamp creds o = Except.error msg := by
  have hv : (validateOrderParams o).isSome = true := by
    unfold orderRuleViolation at h
    unfold validateOrderParams
    simp only [Bool.or_eq_true] at h
    split_ifs with d1 d2 d3
    · rfl
    · rfl
    · rfl
    · tauto
  refine ⟨hv, ?_⟩
  obtain ⟨e, he⟩ := Option.isSome_iff_exists.mp hv
  cases creds with
  | none => exact ⟨"API credentials not set", rfl⟩
  | some c =>
      refine ⟨e, ?_⟩
      unfold placeOrder
      rw [he]

/-- Witness for C3: the spec's scenario order — a spot pair (`BTC-USDT`) in
`cross` trade mode — is rejected locally. -/
theorem placeOrder_failfast_witness :
    orderRuleViolation testOrder = true ∧
    (validateOrderParams testOrder).isSome = true ∧
    ∃ msg, placeOrder "2024-01-01T00:00:00.000Z" (some testCreds) testOrder =
      Except.error msg :=
  ⟨by decide,
   (placeOrder_failfast "2024-01-01T00:00:00.000Z" (some testCreds) testOrder (by decide)).1,
   (placeOrder_failfast "2024-01-01T00:00:00.000Z" (some testCreds) testOrder (by decide)).2⟩

/-! ### C6: signature determinism (and the failure of injectivity) -/

/-- C6 counterexample: the signed message is the plain concatenation
`timestamp ++ METHOD ++ path ++ body`, so the two distinct input tuples
`(path, body) = ("/x", "")` and `("/", "x")` build the same message and
therefore the same signature, refuting "tuples that differ in any component
yield different signatures". -/
theorem generateSignature_collision :
    (("/x", "") : String × String) ≠ ("/", "x") ∧
    generateSignature testCreds "t" "GET" "/x" "" =
      generateSignature testCreds "t" "GET" "/" "x" := by
  constructor
  · decide
  · unfold generateSignature
    have hm : ("t" ++ jsToUpper "GET" ++ "/x" ++ "" : String) =
        "t" ++ jsToUpper "GET" ++ "/" ++ "x" := by decide
    rw [hm]

/-- C6 (amended): `sign` is deterministic — the signature is exactly
`Base64(HMAC-SHA256(secretKey, timestamp ++ uppercased method ++ path ++ body))`,
a function of the secret and that concatenated message alone; two calls agree
whenever their concatenated messages agree (tuples that differ may collide,
e.g. across the path/body boundary or in method case). -/
theorem generateSignature_message_determined (c : OKXCredentials)
    (t₁ m₁ p₁ b₁ t₂ m₂ p₂ b₂ : String)
    (h : t₁ ++ jsToUpper m₁ ++ p₁ ++ b₁ = t₂ ++ jsToUpper m₂ ++ p₂ ++ b₂) :
    generateSignature c t₁ m₁ p₁ b₁ = generateSignature c t₂ m₂ p₂ b₂ ∧
    generateSignature c t₁ m₁ p₁ b₁ =
      base64Encode (hmacSHA256 (utf8Bytes c.secretKey)
        (utf8Bytes (t₁ ++ jsToUpper m₁ ++ p₁ ++ b₁))) := by
  constructor
  · unfold generateSignature
    rw [h]
  · rfl

/-- Witness for the amended C6: lower-case and upper-case `"get"` build the
same signed message, hence the same signature. -/
theorem generateSignature_message_determined_witness :
    (("t" ++ jsToUpper "get" ++ "/p" ++ "" : String) = "t" ++ jsToUpper "GET" ++ "/p" ++ "") ∧
    generateSignature testCreds "t" "get" "/p" "" =
      generateSignature testCreds "t" "GET" "/p" "" ∧
    generateSignature testCreds "t" "get" "/p" "" =
      base64Encode (hmacSHA256 (utf8Bytes testCreds.secretKey)
        (utf8Bytes ("t" ++ jsToUpper "get" ++ "/p" ++ ""))) :=
  ⟨by decide,
   (generateSignature_message_determined testCreds "t" "get" "/p" "" "t" "GET" "/p" ""
     (by decide)).1,
   (generateSignature_message_determined testCreds "t" "get" "/p" "" "t" "GET" "/p" ""
     (by decide)).2⟩

/-! ### Fallback lemmas for insufficient history -/

theorem calculateRSI_fallback (p : List ℚ) (h : p.length < 15) : calculateRSI p 14 = 50 := by
  unfold calculateRSI
  rw [if_pos (by omega)]

theorem calculateMACD_fallback (p : List ℚ) (h : p.length < 26) :
    calculateMACD p = ⟨0, 0, 0⟩ := by
  unfold calculateMACD
  rw [if_pos h]

theorem calculateBollingerBands_fallback (sqrt : ℚ → ℚ) (p : List ℚ) (h : p.length < 20) :
    calculateBollingerBands sqrt p = ⟨lastOrZero p, lastOrZero p, lastOrZero p⟩ := by
  unfold calculateBollingerBands
  rw [if_pos h]

theorem calculateSMA_fallback (p : List ℚ) (n : ℕ) (h : p.length < n) :
    calculateSMA p n = lastOrZero p := by
  unfold calculateSMA
  rw [if_pos h]

theorem calculateVolatility_fallback (sqrt : ℚ → ℚ) (p : List ℚ) (h : p.length < 20) :
    calculateVolatility sqrt p = 0 := by
  unfold calculateVolatility
  rw [if_pos h]

/-! ### C9: below 15 samples the signal is a neutral hold -/

/-- C9: with fewer than 15 samples every rule's fallback fires — RSI is 50,
MACD is all zeros, the bands and all three SMAs collapse to the latest price,
volatility is 0 — so `generateSignal` returns hold with confidence 0,
quantity 0 and empty reasoning. -/
theorem generateSignal_insufficient_history (sqrt : ℚ → ℚ) (prices volumes : List ℚ)
    (cfg : AIModelConfig) (h : prices.length < 15) :
    (generateTradingSignal sqrt prices volumes cfg).action = TradeAction.hold ∧
    (generateTradingSignal sqrt prices volumes cfg).confidence = 0 ∧
    (generateTradingSignal sqrt prices volumes cfg).quantity = 0 ∧
    (generateTradingSignal sqrt prices volumes cfg).reasoning = "" := by
  have h20 : prices.length < 20 := by omega
  have h26 : prices.length < 26 := by omega
  unfold generateTradingSignal getMarketIndicators
  rw [calculateRSI_fallback prices h, calculateMACD_fallback prices h26,
      calculateBollingerBands_fallback sqrt prices h20,
      calculateSMA_fallback prices 20 (by omega), calculateSMA_fallback prices 50 (by omega),
      calculateSMA_fallback prices 200 (by omega), calculateVolatility_fallback sqrt prices h20]
  norm_num
  rfl

/-- Witness for C9 at the three-sample history `[1, 2, 3]`. -/
theorem generateSignal_insufficient_history_witness :
    ([1, 2, 3] : List ℚ).length < 15 ∧
    ((generateTradingSignal (fun _ => 0) [1, 2, 3] [] defaultConfig).action =
        TradeAction.hold ∧
      (generateTradingSignal (fun _ => 0) [1, 2, 3] [] defaultConfig).confidence = 0 ∧
      (generateTradingSignal (fun _ => 0) [1, 2, 3] [] defaultConfig).quantity = 0 ∧
      (generateTradingSignal (fun _ => 0) [1, 2, 3] [] defaultConfig).reasoning = "") :=
  ⟨by decide,
   generateSignal_insufficient_history (fun _ => 0) [1, 2, 3] [] defaultConfig (by decide)⟩

/-! ### C1: the signal matches the spec's rule table -/

theorem bollinger_lower_le_upper (sqrt : ℚ → ℚ) (hs : ∀ x, 0 ≤ sqrt x) (p : List ℚ) :
    (calculateBollingerBands sqrt p).lower ≤ (calculateBollingerBands sqrt p).upper := by
  unfold calculateBollingerBands
  by_cases h : p.length < 20
  · rw [if_pos h]
  · rw [if_neg h]
    dsimp only
    have hv := hs (listSum ((sliceLast p 20).map
      (fun price => (price - calculateSMA p 20) ^ 2)) / 20)
    linarith

/-- One `if / else if / else` scoring block of the source, rewritten into the
spec's additive form, valid when the two rule conditions are exclusive. -/
theorem pair_step_split (c₁ c₂ : Prop) [Decidable c₁] [Decidable c₂]
    (a : ℚ) (r : List String) (d₁ d₂ : ℚ) (t₁ t₂ : String) (hx : ¬(c₁ ∧ c₂)) :
    (if c₁ then (a + d₁, r ++ [t₁]) else if c₂ then (a - d₂, r ++ [t₂]) else (a, r)) =
    (a + ((if c₁ then d₁ else 0) - (if c₂ then d₂ else 0)),
     r ++ ((if c₁ then [t₁] else []) ++ (if c₂ then [t₂] else []))) := by
  by_cases h₁ : c₁
  · rw [if_pos h₁, if_pos h₁, if_pos h₁,
      if_neg (fun h₂ => hx ⟨h₁, h₂⟩), if_neg (fun h₂ => hx ⟨h₁, h₂⟩)]
    simp
  · rw [if_neg h₁, if_neg h₁, if_neg h₁]
    by_cases h₂ : c₂
    · rw [if_pos h₂, if_pos h₂, if_pos h₂]
      simp only [Prod.mk.injEq, List.nil_append, and_true]
      ring
    · rw [if_neg h₂, if_neg h₂, if_neg h₂]
      simp

/-- The volatility dampener step, rewritten into the spec's form. -/
theorem vol_step_split (c : Prop) [Decidable c] (a : ℚ) (r : List String) (t : String) :
    (if c then (a * 0.8, r ++ [t]) else (a, r)) =
    ((if c then a * 0.8 else a), r ++ (if c then [t] else [])) := by
  by_cases h : c <;> simp [h]

/-- A negative rule weight pulled out of its conditional. -/
theorem ite_neg_zero (c : Prop) [Decidable c] (d : ℚ) :
    (if c then -d else 0) = -(if c then d else 0) := by
  by_cases h : c <;> simp [h]

/-- C1: `generateSignal` scores exactly by the spec's additive rule table
(+2/−2 RSI, +1.5/−1.5 MACD, +1/−1 Bollinger, +1/−1 SMA stack), multiplies by
0.8 when volatility exceeds 5 after all additive rules, thresholds at ±2 for
buy/sell, sets `confidence = min(|score|/5, 1)`,
`quantity = maxPositionSize * confidence`, and joins exactly the triggered
tags in table order: it coincides with `specSignal` for every history, config
and (nonnegative) square-root realization. -/
theorem generateSignal_matches_spec (sqrt : ℚ → ℚ) (prices volumes : List ℚ)
    (cfg : AIModelConfig) (hs : ∀ x, 0 ≤ sqrt x) :
    generateTradingSignal sqrt prices volumes cfg = specSignal sqrt prices volumes cfg := by
  have hboll := bollinger_lower_le_upper sqrt hs prices
  unfold generateTradingSignal specSignal
  set ind := getMarketIndicators sqrt prices volumes with hind
  set price := lastOrZero prices with hprice
  have hb : ind.bollinger.lower ≤ ind.bollinger.upper := by
    rw [hind]
    exact hboll
  have hx₁ : ¬(ind.rsi < 30 ∧ ind.rsi > 70) := fun h => absurd h.2 (by linarith [h.1])
  have hx₂ : ¬((ind.macd.histogram > 0 ∧ ind.macd.macd > ind.macd.signal) ∧
      (ind.macd.histogram < 0 ∧ ind.macd.macd < ind.macd.signal)) :=
    fun h => absurd h.2.1 (by linarith [h.1.1])
  have hx₃ : ¬(price < ind.bollinger.lower ∧ price > ind.bollinger.upper) :=
    fun h => absurd h.2 (by linarith [h.1, hb])
  have hx₄ : ¬((ind.sma.sma20 > ind.sma.sma50 ∧ ind.sma.sma50 > ind.sma.sma200) ∧
      (ind.sma.sma20 < ind.sma.sma50 ∧ ind.sma.sma50 < ind.sma.sma200)) :=
    fun h => absurd h.2.1 (by linarith [h.1.1])
  dsimp only
  rw [pair_step_split _ _ _ _ _ _ _ _ hx₁]
  rw [pair_step_split _ _ _ _ _ _ _ _ hx₂]
  rw [pair_step_split _ _ _ _ _ _ _ _ hx₃]
  rw [pair_step_split _ _ _ _ _ _ _ _ hx₄]
  rw [vol_step_split]
  simp only [ite_neg_zero, List.nil_append, List.append_assoc]
  ring_nf

/-- Witness for C1 at the zero square root and a three-sample history. -/
theorem generateSignal_matches_spec_witness :
    generateTradingSignal (fun _ => 0) [1, 2, 3] [] defaultConfig =
      specSignal (fun _ => 0) [1, 2, 3] [] defaultConfig :=
  generateSignal_matches_spec (fun _ => 0) [1, 2, 3] [] defaultConfig
    (fun _ => le_refl 0)

end OkxTrader
